import Mathlib

/-!
Shallow embedding of the core timer and alarm engine of the
Padel_Alarm firmware (src/Padel_Alarm.ino/Padel_Alarm.ino.ino).

Millisecond timestamps are values of the 32 bit unsigned counter, so all
timestamp arithmetic is done modulo 2^32 exactly as C unsigned long
arithmetic does on the target.  Configuration fields are C int values,
modelled as Int.  The four relay outputs are modelled as Bool values,
true meaning the relay is energised (the active LOW pin written LOW).
-/

namespace PadelAlarm

/-- Modulus of 32 bit unsigned arithmetic, the width of unsigned long on the target. -/
def U32MOD : Nat := 4294967296

/-- Unsigned 32 bit subtraction a - b, as C unsigned long arithmetic computes it. -/
def wsub (a b : Nat) : Nat := (a + U32MOD - b % U32MOD) % U32MOD

/-- Conversion of a C int value to unsigned long (reduction modulo 2^32). -/
def toU32 (i : Int) : Nat := (i % (U32MOD : Int)).toNat

/-- Conversion of an unsigned long value to signed long (two-complement reading). -/
def toSigned32 (n : Nat) : Int :=
  if n % U32MOD < 2147483648 then ((n % U32MOD : Nat) : Int)
  else ((n % U32MOD : Nat) : Int) - (U32MOD : Int)

/-- Timer data for one field, lines 27-34 of the source. -/
structure TimerData where
  startTime : Nat
  duration : Nat
  isRunning : Bool
  isFinished : Bool
  warningTriggered : Bool
  fieldName : String
deriving Repr, DecidableEq

/-- Alarm configuration, lines 44-53 of the source.  All numeric fields are C int. -/
structure AlarmConfig where
  testDuration : Int
  warningDuration : Int
  timeupDuration : Int
  warningTime : Int
  repeatCount : Int
  repeatInterval : Int
  enableWarning : Bool
  enableRepeating : Bool
deriving Repr, DecidableEq

/-- Alarm sequence state for one field, lines 61-68 of the source. -/
structure AlarmState where
  active : Bool
  startTime : Nat
  type : Int
  currentRepeat : Int
  relayOn : Bool
  lastToggle : Nat
deriving Repr, DecidableEq

/-- Whole-system state: the four timers, the four alarm sequences, the four
physical relay output levels, and the shared alarm configuration. -/
structure SystemState where
  fields : Fin 4 → TimerData
  alarmStates : Fin 4 → AlarmState
  relays : Fin 4 → Bool
  alarmConfig : AlarmConfig

/-- validateFieldIndex, lines 236-238 of the source. -/
def validateFieldIndex (index : Int) : Bool := decide (0 ≤ index ∧ index < 4)

/-- validateAlarmType, lines 240-242 of the source. -/
def validateAlarmType (ty : Int) : Bool := decide (0 ≤ ty ∧ ty ≤ 2)

/-- Arduino constrain: clamp amt into the closed interval from low to high. -/
def constrain (amt low high : Int) : Int :=
  if amt < low then low else if amt > high then high else amt

/-- Raw candidate configuration values, after JSON or preferences defaults have
been supplied, as fed to the clamping steps of handleSaveConfig (lines 674-681)
and loadAlarmConfig (lines 247-254). -/
structure ConfigCandidate where
  testDuration : Int
  warningDuration : Int
  timeupDuration : Int
  warningTime : Int
  repeatCount : Int
  repeatInterval : Int
  enableWarning : Bool
  enableRepeating : Bool
deriving Repr, DecidableEq

/-- The configuration update of handleSaveConfig, lines 674-681 of the source:
every numeric field is clamped with constrain, never rejected. -/
def handleSaveConfig (c : ConfigCandidate) : AlarmConfig :=
  { testDuration := constrain c.testDuration 1 30,
    warningDuration := constrain c.warningDuration 1 30,
    timeupDuration := constrain c.timeupDuration 1 60,
    warningTime := constrain c.warningTime 30 1800,
    repeatCount := constrain c.repeatCount 1 10,
    repeatInterval := constrain c.repeatInterval 1 10,
    enableWarning := c.enableWarning,
    enableRepeating := c.enableRepeating }

/-- loadAlarmConfig, lines 244-265 of the source: the values read from
preferences (with defaults) are clamped with the same constrain calls
as at update time. -/
def loadAlarmConfig (c : ConfigCandidate) : AlarmConfig :=
  { testDuration := constrain c.testDuration 1 30,
    warningDuration := constrain c.warningDuration 1 30,
    timeupDuration := constrain c.timeupDuration 1 60,
    warningTime := constrain c.warningTime 30 1800,
    repeatCount := constrain c.repeatCount 1 10,
    repeatInterval := constrain c.repeatInterval 1 10,
    enableWarning := c.enableWarning,
    enableRepeating := c.enableRepeating }

/-- startAlarmSequence, lines 284-313 of the source.  Takes the alarm state and
physical relay level of the addressed channel; on invalid input it is a no-op,
otherwise the prior sequence is discarded, the relay is written off, and the
fresh sequence is installed with relayOn = false. -/
def startAlarmSequence (st : AlarmState) (relay : Bool) (fieldIndex durationType : Int)
    (now : Nat) : AlarmState × Bool :=
  if validateFieldIndex fieldIndex = false then (st, relay)
  else if validateAlarmType durationType = false then (st, relay)
  else
    ({ active := true, startTime := now, type := durationType, currentRepeat := 0,
       relayOn := false, lastToggle := now }, false)

/-- The parameter resolution of the switch in processAlarms, lines 323-346:
pulse duration in milliseconds, repeat count and interval in milliseconds,
per alarm type; none for the default branch. -/
def alarmParams (cfg : AlarmConfig) (ty : Int) : Option (Int × Int × Int) :=
  if ty = 0 then some (cfg.testDuration * 1000, 1, 0)
  else if ty = 1 then
    some (cfg.warningDuration * 1000, if cfg.enableRepeating then 2 else 1,
          cfg.repeatInterval * 1000)
  else if ty = 2 then
    some (cfg.timeupDuration * 1000,
          if cfg.enableRepeating then cfg.repeatCount else 1,
          cfg.repeatInterval * 1000)
  else none

/-- The total sequence length in milliseconds computed at line 349 of the
source: maxRepeats * duration + (maxRepeats - 1) * interval, converted to
unsigned long. -/
def alarmTotalDuration (cfg : AlarmConfig) (ty : Int) : Nat :=
  match alarmParams cfg ty with
  | none => 0
  | some (duration, maxRepeats, interval) =>
      toU32 (maxRepeats * duration + (maxRepeats - 1) * interval)

/-- The body of the processAlarms loop for one channel, lines 316-379 of the
source.  Takes the alarm state and the physical relay level, returns the new
alarm state and relay level. -/
def processAlarmChannel (cfg : AlarmConfig) (st : AlarmState) (relay : Bool)
    (now : Nat) : AlarmState × Bool :=
  if st.active = false then (st, relay)
  else
    match alarmParams cfg st.type with
    | none => ({ st with active := false }, relay)
    | some (duration, maxRepeats, interval) =>
      let elapsed := wsub now st.startTime
      let totalDuration := toU32 (maxRepeats * duration + (maxRepeats - 1) * interval)
      if totalDuration ≤ elapsed then ({ st with active := false }, false)
      else
        let cycleTime := toU32 (duration + interval)
        let currentCycle : Int := (elapsed / cycleTime : Nat)
        let cycleElapsed := elapsed % cycleTime
        if currentCycle < maxRepeats then
          if cycleElapsed < toU32 duration then
            if st.relayOn = false then ({ st with relayOn := true }, true)
            else (st, relay)
          else
            if st.relayOn = true then ({ st with relayOn := false }, false)
            else (st, relay)
        else (st, relay)

/-- The body of the checkTimers loop for one channel, lines 397-432 of the
source.  The final List Int records which startAlarmSequence calls the
iteration performed (1 = warning, 2 = time up), in order. -/
def checkTimerField (cfg : AlarmConfig) (i : Fin 4) (td : TimerData) (st : AlarmState)
    (relay : Bool) (now : Nat) : TimerData × AlarmState × Bool × List Int :=
  if td.isRunning && !td.isFinished then
    let elapsed := wsub now td.startTime / 1000
    if td.duration + 60 < elapsed then
      ({ td with isRunning := false, isFinished := true }, st, relay, [])
    else
      let remaining := if td.duration ≤ elapsed then 0 else td.duration - elapsed
      let fire := cfg.enableWarning && !td.warningTriggered &&
        decide (remaining ≤ toU32 cfg.warningTime) && decide (0 < remaining)
      let td1 := if fire then { td with warningTriggered := true } else td
      let sr1 := if fire then startAlarmSequence st relay (i.val : Int) 1 now
                 else (st, relay)
      if td.duration ≤ elapsed then
        let sr2 := startAlarmSequence sr1.1 sr1.2 (i.val : Int) 2 now
        ({ td1 with isRunning := false, isFinished := true }, sr2.1, sr2.2,
         (if fire then [1] else []) ++ [2])
      else (td1, sr1.1, sr1.2, if fire then [1] else [])
  else (td, st, relay, [])

/-- checkTimers, lines 382-433 of the source.  lastOverflowCheck is the static
clock value observed at the previous tick; the wraparound check runs once per
tick, before the per-channel loop, and re-baselines every running channel.
The returned Nat is the new lastOverflowCheck value (the source assigns it at
line 395). -/
def checkTimers (s : SystemState) (lastOverflowCheck now : Nat) : SystemState × Nat :=
  let fields0 :=
    if now < lastOverflowCheck then
      fun i => if (s.fields i).isRunning then { s.fields i with startTime := now }
               else s.fields i
    else s.fields
  ({ s with
      fields := fun i =>
        (checkTimerField s.alarmConfig i (fields0 i) (s.alarmStates i) (s.relays i) now).1,
      alarmStates := fun i =>
        (checkTimerField s.alarmConfig i (fields0 i) (s.alarmStates i) (s.relays i) now).2.1,
      relays := fun i =>
        (checkTimerField s.alarmConfig i (fields0 i) (s.alarmStates i) (s.relays i) now).2.2.1 },
   now)

/-- Iterated ticks of the per-channel timer step over a list of clock values,
collecting all startAlarmSequence events (1 = warning, 2 = time up). -/
def tickRun (cfg : AlarmConfig) (i : Fin 4) :
    List Nat → TimerData × AlarmState × Bool →
    (TimerData × AlarmState × Bool) × List Int
  | [], x => (x, [])
  | t :: ts, x =>
      let r := checkTimerField cfg i x.1 x.2.1 x.2.2 t
      let rest := tickRun cfg i ts (r.1, r.2.1, r.2.2.1)
      (rest.1, r.2.2.2 ++ rest.2)

/-- Outcome of the start endpoint. -/
inductive StartResult where
  | ok
  | invalidChannel
  | invalidDuration
deriving Repr, DecidableEq

/-- handleStart, lines 517-550 of the source, after HTTP argument extraction:
lap is the requested channel index, durasi the requested duration in seconds
(an unsigned long, so nonnegative).  Validation happens before any mutation;
on success only the timer slot of the addressed channel is rewritten. -/
def handleStart (s : SystemState) (lap : Int) (durasi : Nat) (now : Nat) :
    SystemState × StartResult :=
  if h : validateFieldIndex lap = true then
    if durasi = 0 ∨ 14400 < durasi then (s, StartResult.invalidDuration)
    else
      let i : Fin 4 := ⟨lap.toNat, by
        simp only [validateFieldIndex, decide_eq_true_eq] at h; omega⟩
      let td : TimerData :=
        { startTime := now, duration := durasi, isRunning := true,
          isFinished := false, warningTriggered := false,
          fieldName := (s.fields i).fieldName }
      ({ s with fields := Function.update s.fields i td }, StartResult.ok)
  else (s, StartResult.invalidChannel)

/-- The remaining-seconds value reported by handleStatus for a running channel,
lines 611-616 of the source: unsigned subtraction duration - elapsed read as a
signed long, clamped to 0 from below. -/
def handleStatusRemaining (td : TimerData) (now : Nat) : Int :=
  let elapsed := wsub now td.startTime / 1000
  let remaining := toSigned32 (wsub td.duration elapsed)
  if remaining ≤ 0 then 0 else remaining

/-- Status classes reported by handleStatus. -/
inductive StatusClass where
  | finished
  | warning
  | running
  | idle
deriving Repr, DecidableEq

/-- The per-channel body of handleStatus, lines 605-633 of the source: the
status class and the reported remaining seconds (none for an idle channel,
whose time field is rendered as dashes). -/
def handleStatusField (cfg : AlarmConfig) (td : TimerData) (now : Nat) :
    StatusClass × Option Int :=
  if td.isFinished then (StatusClass.finished, some 0)
  else if td.isRunning then
    let remaining := handleStatusRemaining td now
    if cfg.enableWarning && decide (remaining ≤ cfg.warningTime) && decide (0 < remaining)
    then (StatusClass.warning, some remaining)
    else (StatusClass.running, some remaining)
  else (StatusClass.idle, none)

/-- An idle timer slot, as initialised at lines 36-41 of the source. -/
def exTimer : TimerData :=
  { startTime := 0, duration := 0, isRunning := false, isFinished := false,
    warningTriggered := false, fieldName := "Field 1" }

/-- A running timer slot used as a concrete test vector. -/
def exRunTimer : TimerData :=
  { startTime := 4000000, duration := 600, isRunning := true, isFinished := false,
    warningTriggered := false, fieldName := "Field 1" }

/-- An active warning sequence with its relay energised, used as a test vector. -/
def exAlarmOn : AlarmState :=
  { active := true, startTime := 0, type := 1, currentRepeat := 0,
    relayOn := true, lastToggle := 0 }

/-- The default configuration, line 55 of the source. -/
def exConfig : AlarmConfig :=
  { testDuration := 3, warningDuration := 2, timeupDuration := 8, warningTime := 300,
    repeatCount := 3, repeatInterval := 2, enableWarning := true,
    enableRepeating := true }

/-- A concrete system state with an in-progress warning alarm on channel 0. -/
def exState : SystemState :=
  { fields := fun _ => exTimer, alarmStates := fun _ => exAlarmOn,
    relays := fun _ => true, alarmConfig := exConfig }

/-- A concrete system state whose channels are running. -/
def exRunState : SystemState :=
  { fields := fun _ => exRunTimer, alarmStates := fun _ => exAlarmOn,
    relays := fun _ => true, alarmConfig := exConfig }

/-! Helper lemmas. -/

/-- Unsigned subtraction agrees with Nat subtraction when no wrap occurs. -/
theorem wsub_eq_sub {a b : Nat} (h1 : b ≤ a) (h2 : a < U32MOD) : wsub a b = a - b := by
  unfold wsub
  rw [Nat.mod_eq_of_lt (lt_of_le_of_lt h1 h2)]
  have h3 : a + U32MOD - b = (a - b) + U32MOD := by omega
  rw [h3, Nat.add_mod_right]
  exact Nat.mod_eq_of_lt (by omega)

/-- Unsigned subtraction of a value from itself is zero when the value is in range. -/
theorem wsub_self {a : Nat} (h : a < U32MOD) : wsub a a = 0 := by
  rw [wsub_eq_sub (le_refl a) h, Nat.sub_self]

/-- constrain lands in the requested interval whenever the interval is nonempty. -/
theorem constrain_mem (amt low high : Int) (h : low ≤ high) :
    low ≤ constrain amt low high ∧ constrain amt low high ≤ high := by
  unfold constrain
  split_ifs <;> omega

/-- With a valid channel and a valid alarm type, startAlarmSequence discards the
prior sequence entirely and installs the fresh one with the relay written off. -/
theorem startAlarmSequence_valid (st : AlarmState) (relay : Bool) (idx ty : Int)
    (now : Nat) (h1 : 0 ≤ idx) (h2 : idx < 4) (h3 : 0 ≤ ty) (h4 : ty ≤ 2) :
    startAlarmSequence st relay idx ty now =
      ({ active := true, startTime := now, type := ty, currentRepeat := 0,
         relayOn := false, lastToggle := now }, false) := by
  unfold startAlarmSequence validateFieldIndex validateAlarmType
  simp [h1, h2, h3, h4]

/-- When the runaway guard condition holds, the per-channel tick body stops the
channel and touches nothing else: no alarm event, alarm state and relay as
before. -/
theorem checkTimerField_guard (cfg : AlarmConfig) (i : Fin 4) (td : TimerData)
    (st : AlarmState) (relay : Bool) (now : Nat)
    (hrun : td.isRunning = true) (hfin : td.isFinished = false)
    (hg : td.duration + 60 < wsub now td.startTime / 1000) :
    checkTimerField cfg i td st relay now =
      ({ td with isRunning := false, isFinished := true }, st, relay, []) := by
  simp [checkTimerField, hrun, hfin, hg]

/-- At elapsed time zero (startTime = now) a running channel with positive
duration stays running: the guard does not trip and the time-up branch is not
taken, so only warningTriggered can change. -/
theorem checkTimerField_zero (cfg : AlarmConfig) (i : Fin 4) (td : TimerData)
    (st : AlarmState) (relay : Bool) (now : Nat)
    (hrun : td.isRunning = true) (hfin : td.isFinished = false)
    (hst : td.startTime = now) (hnow : now < U32MOD) (hdur : 0 < td.duration) :
    (checkTimerField cfg i td st relay now).1.startTime = now ∧
    (checkTimerField cfg i td st relay now).1.isRunning = true ∧
    (checkTimerField cfg i td st relay now).1.isFinished = false ∧
    (checkTimerField cfg i td st relay now).1.duration = td.duration := by
  have hz : wsub now td.startTime / 1000 = 0 := by
    rw [hst, wsub_self hnow]
  simp only [checkTimerField, hrun, hfin, hz, Bool.not_false, Bool.and_self]
  have hng : ¬(td.duration + 60 < 0) := by omega
  have hnt : ¬(td.duration ≤ 0) := by omega
  simp only [if_neg hng, if_neg hnt, if_true, Bool.and_true]
  split_ifs <;> simp [hst, hrun, hfin]

/-- The reported remaining seconds of handleStatus equal
max 0 (duration - elapsed) whenever the clock has not wrapped past startTime
and the duration respects the start-validation bound. -/
theorem handleStatusRemaining_eq (td : TimerData) (now : Nat)
    (h1 : td.startTime ≤ now) (h2 : now < U32MOD) (h3 : td.duration ≤ 14400) :
    handleStatusRemaining td now =
      max 0 ((td.duration : Int) - (((now - td.startTime) / 1000 : Nat) : Int)) := by
  unfold handleStatusRemaining
  rw [wsub_eq_sub h1 h2]
  set e := (now - td.startTime) / 1000 with he
  have heb : e ≤ (U32MOD - 1) / 1000 := by
    rw [he]
    exact Nat.div_le_div_right (by omega)
  unfold toSigned32 wsub
  unfold U32MOD at *
  dsimp only
  split_ifs <;> push_cast <;> omega

/-! Claim theorems. -/

/-- Claim C6: the profile update never rejects numeric values; every numeric
field is clamped into its fixed valid range (testDuration and warningDuration
to 1-30, timeupDuration to 1-60, warningTime to 30-1800, repeatCount to 1-10,
repeatInterval to 1-10); a candidate with warningTime 5 is stored with
warningTime 30; and loadAlarmConfig applies the same clamping. -/
theorem saveConfig_clamps_all_fields (c : ConfigCandidate) :
    (1 ≤ (handleSaveConfig c).testDuration ∧ (handleSaveConfig c).testDuration ≤ 30) ∧
    (1 ≤ (handleSaveConfig c).warningDuration ∧ (handleSaveConfig c).warningDuration ≤ 30) ∧
    (1 ≤ (handleSaveConfig c).timeupDuration ∧ (handleSaveConfig c).timeupDuration ≤ 60) ∧
    (30 ≤ (handleSaveConfig c).warningTime ∧ (handleSaveConfig c).warningTime ≤ 1800) ∧
    (1 ≤ (handleSaveConfig c).repeatCount ∧ (handleSaveConfig c).repeatCount ≤ 10) ∧
    (1 ≤ (handleSaveConfig c).repeatInterval ∧ (handleSaveConfig c).repeatInterval ≤ 10) ∧
    (handleSaveConfig { c with warningTime := 5 }).warningTime = 30 ∧
    loadAlarmConfig c = handleSaveConfig c := by
  refine ⟨constrain_mem _ 1 30 (by omega), constrain_mem _ 1 30 (by omega),
    constrain_mem _ 1 60 (by omega), constrain_mem _ 30 1800 (by omega),
    constrain_mem _ 1 10 (by omega), constrain_mem _ 1 10 (by omega), ?_, rfl⟩
  simp [handleSaveConfig, constrain]

/-- Claim C7: for a channel index outside the valid range, or a valid channel
with a duration outside the interval from 1 to 14400, handleStart fails with
invalidChannel respectively invalidDuration, and the whole system state
(timer slots, alarm sequences, relays, profile) is returned untouched. -/
theorem handleStart_invalid_is_noop (s : SystemState) (lap : Int) (durasi now : Nat) :
    (validateFieldIndex lap = false →
      handleStart s lap durasi now = (s, StartResult.invalidChannel)) ∧
    (validateFieldIndex lap = true → (durasi = 0 ∨ 14400 < durasi) →
      handleStart s lap durasi now = (s, StartResult.invalidDuration)) := by
  constructor
  · intro h
    simp [handleStart, h]
  · intro h hd
    simp [handleStart, h, hd]

/-- Witness for C7: channel 5 is rejected as invalidChannel and duration 20000
on channel 0 is rejected as invalidDuration, both leaving the state untouched. -/
theorem handleStart_invalid_is_noop_witness :
    handleStart exState 5 100 0 = (exState, StartResult.invalidChannel) ∧
    handleStart exState 0 20000 0 = (exState, StartResult.invalidDuration) :=
  ⟨(handleStart_invalid_is_noop exState 5 100 0).1 (by decide),
   (handleStart_invalid_is_noop exState 0 20000 0).2 (by decide) (by decide)⟩

/-- Claim C3: starting a sequence with a valid channel and kind replaces
whatever sequence was on the channel (the result does not depend on the prior
AlarmState, so the prior sequence is cancelled and cannot interleave), forces
the physical output off, and installs the new sequence with startTime = now and
relayOn = false; in particular, over an active Warning sequence with its relay
on, a Test start leaves the output off until the new sequence is advanced. -/
theorem startAlarmSequence_cancels_prior (st : AlarmState) (relay : Bool)
    (idx ty : Int) (now : Nat)
    (hi : validateFieldIndex idx = true) (hk : validateAlarmType ty = true) :
    startAlarmSequence st relay idx ty now =
      ({ active := true, startTime := now, type := ty, currentRepeat := 0,
         relayOn := false, lastToggle := now }, false) := by
  simp only [validateFieldIndex, decide_eq_true_eq] at hi
  simp only [validateAlarmType, decide_eq_true_eq] at hk
  exact startAlarmSequence_valid st relay idx ty now hi.1 hi.2 hk.1 hk.2

/-- Witness for C3: a Test start (kind 0) on channel 2 over an active Warning
sequence whose relay is energised yields the fresh Test sequence with the
output forced off. -/
theorem startAlarmSequence_cancels_prior_witness :
    startAlarmSequence exAlarmOn true 2 0 7 =
      ({ active := true, startTime := 7, type := 0, currentRepeat := 0,
         relayOn := false, lastToggle := 7 }, false) :=
  startAlarmSequence_cancels_prior exAlarmOn true 2 0 7 (by decide) (by decide)

/-- Claim C1, counterexample: starting channel 0 on a state whose channel 0 has
an active alarm sequence with its relay energised succeeds, but the alarm
sequence stays active and the relay stays on, refuting the claim that the start
operation cancels the in-progress alarm sequence and turns the output off. -/
theorem handleStart_cancels_alarm_refuted :
    (handleStart exState 0 100 5).2 = StartResult.ok ∧
    ((handleStart exState 0 100 5).1.alarmStates 0).active = true ∧
    (handleStart exState 0 100 5).1.relays 0 = true := by
  refine ⟨rfl, rfl, rfl⟩

/-- Claim C1, amended: for every valid channel and duration, handleStart resets
the channel to running with the given duration, clearing isFinished and
warningTriggered and recording startTime = now, but it does NOT cancel an
in-progress alarm sequence: the alarm sequence states and the relay outputs of
all channels are left exactly as they were. -/
theorem handleStart_leaves_alarm_state (s : SystemState) (lap : Int)
    (durasi now : Nat) (h : validateFieldIndex lap = true)
    (h2 : durasi ≠ 0) (h3 : durasi ≤ 14400) :
    (handleStart s lap durasi now).1.alarmStates = s.alarmStates ∧
    (handleStart s lap durasi now).1.relays = s.relays ∧
    (handleStart s lap durasi now).2 = StartResult.ok ∧
    ∃ hlt : lap.toNat < 4,
      (handleStart s lap durasi now).1.fields ⟨lap.toNat, hlt⟩ =
        { startTime := now, duration := durasi, isRunning := true,
          isFinished := false, warningTriggered := false,
          fieldName := (s.fields ⟨lap.toNat, hlt⟩).fieldName } := by
  have hd : ¬(durasi = 0 ∨ 14400 < durasi) := by omega
  have hlt : lap.toNat < 4 := by
    simp only [validateFieldIndex, decide_eq_true_eq] at h; omega
  refine ⟨?_, ?_, ?_, hlt, ?_⟩ <;>
    simp [handleStart, h, hd, Function.update_same]

/-- Witness for C1: a valid start on channel 1 leaves the alarm sequence array
untouched. -/
theorem handleStart_leaves_alarm_state_witness :
    (handleStart exState 1 600 42).1.alarmStates = exState.alarmStates :=
  (handleStart_leaves_alarm_state exState 1 600 42 (by decide) (by decide)
    (by decide)).1

/-- Claim C8: at a tick (with no clock wrap this tick), a channel that is
running and not finished whose elapsed seconds exceed its duration by more than
60 is forced to finished and stopped by the runaway-timer guard. -/
theorem runaway_guard_forces_finished (s : SystemState) (lastOF now : Nat)
    (i : Fin 4) (hlast : lastOF ≤ now)
    (hrun : (s.fields i).isRunning = true) (hfin : (s.fields i).isFinished = false)
    (hg : (s.fields i).duration + 60 < wsub now (s.fields i).startTime / 1000) :
    ((checkTimers s lastOF now).1.fields i).isFinished = true ∧
    ((checkTimers s lastOF now).1.fields i).isRunning = false := by
  have hnw : ¬(now < lastOF) := by omega
  simp only [checkTimers, if_neg hnw]
  rw [checkTimerField_guard s.alarmConfig i (s.fields i) (s.alarmStates i)
    (s.relays i) now hrun hfin hg]
  exact ⟨rfl, rfl⟩

/-- Witness for C8: a channel with duration 600 started at clock 4000000,
observed at clock 4700001 (elapsed 700 seconds), is forced finished+stopped. -/
theorem runaway_guard_forces_finished_witness :
    ((checkTimers exRunState 0 4700001).1.fields 0).isFinished = true ∧
    ((checkTimers exRunState 0 4700001).1.fields 0).isRunning = false :=
  runaway_guard_forces_finished exRunState 0 4700001 0 (by decide) (by decide)
    (by decide) (by decide)

/-- Claim C10: when the runaway guard trips for a channel, that tick starts no
alarm sequence of any kind on the channel (the event list of the iteration is
empty) and leaves the alarm sequence state and commanded relay of the channel
output exactly unchanged: the early continue bypasses both the warning check
and the time-up branch. -/
theorem runaway_guard_starts_no_alarm (s : SystemState) (lastOF now : Nat)
    (i : Fin 4) (hlast : lastOF ≤ now)
    (hrun : (s.fields i).isRunning = true) (hfin : (s.fields i).isFinished = false)
    (hg : (s.fields i).duration + 60 < wsub now (s.fields i).startTime / 1000) :
    (checkTimers s lastOF now).1.alarmStates i = s.alarmStates i ∧
    (checkTimers s lastOF now).1.relays i = s.relays i ∧
    (checkTimerField s.alarmConfig i (s.fields i) (s.alarmStates i) (s.relays i)
      now).2.2.2 = [] := by
  have hnw : ¬(now < lastOF) := by omega
  simp only [checkTimers, if_neg hnw]
  rw [checkTimerField_guard s.alarmConfig i (s.fields i) (s.alarmStates i)
    (s.relays i) now hrun hfin hg]
  exact ⟨rfl, rfl, rfl⟩

/-- Witness for C10: on the runaway tick the alarm sequence of the channel is
left untouched. -/
theorem runaway_guard_starts_no_alarm_witness :
    (checkTimers exRunState 0 4800000).1.alarmStates 0 = exRunState.alarmStates 0 :=
  (runaway_guard_starts_no_alarm exRunState 0 4800000 0 (by decide) (by decide)
    (by decide) (by decide)).1

/-- Claim C5: on a tick whose observed clock value is strictly below the value
observed at the previous tick, checkTimers re-baselines the startTime of every
running channel to now (the wrap check runs once per tick, before the
per-channel loop); the channel stays running and unfinished, keeps its
duration, and its reported remaining seconds equal the full duration, so
nothing underflows and no immediate completion is reported: counting resumes
from the wrap point. -/
theorem overflow_rebaselines_running_channels (s : SystemState) (lastOF now : Nat)
    (i : Fin 4) (hwrap : now < lastOF)
    (hrun : (s.fields i).isRunning = true) (hfin : (s.fields i).isFinished = false)
    (hdur : 0 < (s.fields i).duration) (hdur2 : (s.fields i).duration ≤ 14400)
    (hnow : now < U32MOD) :
    ((checkTimers s lastOF now).1.fields i).startTime = now ∧
    ((checkTimers s lastOF now).1.fields i).isRunning = true ∧
    ((checkTimers s lastOF now).1.fields i).isFinished = false ∧
    ((checkTimers s lastOF now).1.fields i).duration = (s.fields i).duration ∧
    handleStatusRemaining ((checkTimers s lastOF now).1.fields i) now =
      ((s.fields i).duration : Int) := by
  have key : ∀ p : TimerData → Nat,
      p ((checkTimers s lastOF now).1.fields i) =
      p ((checkTimerField s.alarmConfig i { s.fields i with startTime := now }
        (s.alarmStates i) (s.relays i) now).1) := by
    intro p
    simp only [checkTimers, if_pos hwrap]
    rw [if_pos hrun]
  have keyB : ∀ p : TimerData → Bool,
      p ((checkTimers s lastOF now).1.fields i) =
      p ((checkTimerField s.alarmConfig i { s.fields i with startTime := now }
        (s.alarmStates i) (s.relays i) now).1) := by
    intro p
    simp only [checkTimers, if_pos hwrap]
    rw [if_pos hrun]
  have keyT : (checkTimers s lastOF now).1.fields i =
      (checkTimerField s.alarmConfig i { s.fields i with startTime := now }
        (s.alarmStates i) (s.relays i) now).1 := by
    simp only [checkTimers, if_pos hwrap]
    rw [if_pos hrun]
  have hz := checkTimerField_zero s.alarmConfig i
    { s.fields i with startTime := now } (s.alarmStates i) (s.relays i) now
    hrun hfin rfl hnow hdur
  refine ⟨?_, ?_, ?_, ?_, ?_⟩
  · rw [key (fun td => td.startTime)]; exact hz.1
  · rw [keyB (fun td => td.isRunning)]; exact hz.2.1
  · rw [keyB (fun td => td.isFinished)]; exact hz.2.2.1
  · rw [key (fun td => td.duration)]; exact hz.2.2.2
  · rw [keyT]
    rw [handleStatusRemaining_eq _ now (le_of_eq hz.1) hnow
      (by rw [hz.2.2.2]; exact hdur2), hz.1, hz.2.2.2]
    have hds : ({ s.fields i with startTime := now } : TimerData).duration =
        (s.fields i).duration := rfl
    rw [hds, Nat.sub_self, Nat.zero_div]
    omega

/-- Witness for C5: the clock wraps from 5000000 down to 100 while channel 0 is
running; its startTime is re-baselined to 100 and it reports its full duration
remaining. -/
theorem overflow_rebaselines_running_channels_witness :
    ((checkTimers exRunState 5000000 100).1.fields 0).startTime = 100 ∧
    handleStatusRemaining ((checkTimers exRunState 5000000 100).1.fields 0) 100 =
      ((exRunState.fields 0).duration : Int) := by
  have h := overflow_rebaselines_running_channels exRunState 5000000 100 0
    (by decide) (by decide) (by decide) (by decide) (by decide) (by decide)
  exact ⟨h.1, h.2.2.2.2⟩

/-- Claim C9: for a running, unfinished channel with fixed startTime and
duration, the remaining seconds reported by handleStatus equal
max 0 (duration - elapsed) with elapsed = (now - startTime) / 1000, are never
below 0, and are non-increasing as the queried clock value grows without
wrapping; handleStatus reports exactly this value for the channel. -/
theorem status_remaining_monotone (cfg : AlarmConfig) (td : TimerData)
    (now now2 : Nat) (hrun : td.isRunning = true) (hfin : td.isFinished = false)
    (h1 : td.startTime ≤ now) (h2 : now ≤ now2) (h3 : now2 < U32MOD)
    (h4 : td.duration ≤ 14400) :
    handleStatusRemaining td now2 ≤ handleStatusRemaining td now ∧
    0 ≤ handleStatusRemaining td now ∧
    handleStatusRemaining td now =
      max 0 ((td.duration : Int) - (((now - td.startTime) / 1000 : Nat) : Int)) ∧
    (handleStatusField cfg td now).2 = some (handleStatusRemaining td now) := by
  have hA := handleStatusRemaining_eq td now h1 (by omega) h4
  have hB := handleStatusRemaining_eq td now2 (by omega) h3 h4
  have hmono : ((now - td.startTime) / 1000 : Nat) ≤ ((now2 - td.startTime) / 1000 : Nat) :=
    Nat.div_le_div_right (by omega)
  refine ⟨?_, ?_, hA, ?_⟩
  · rw [hA, hB]
    have : (((now - td.startTime) / 1000 : Nat) : Int) ≤
        (((now2 - td.startTime) / 1000 : Nat) : Int) := by exact_mod_cast hmono
    omega
  · rw [hA]; omega
  · simp only [handleStatusField, hfin, hrun, Bool.false_eq_true, if_false, if_true]
    split_ifs <;> rfl

/-- Witness for C9: with the running example channel, the reported remaining
seconds at clock 4300000 do not exceed those at clock 4200000. -/
theorem status_remaining_monotone_witness :
    handleStatusRemaining exRunTimer 4300000 ≤ handleStatusRemaining exRunTimer 4200000 :=
  (status_remaining_monotone exConfig exRunTimer 4200000 4300000 (by decide)
    (by decide) (by decide) (by decide) (by decide) (by decide)).1

/-- With the profile values of the time-up test property, the switch of
processAlarms resolves to a pulse of 8000 ms, 3 repeats, and 2000 ms interval. -/
theorem alarmParams_timeup (cfg : AlarmConfig) (h8 : cfg.timeupDuration = 8)
    (h3 : cfg.repeatCount = 3) (h2 : cfg.repeatInterval = 2)
    (hrep : cfg.enableRepeating = true) :
    alarmParams cfg 2 = some (8000, 3, 2000) := by
  norm_num [alarmParams, h8, h3, h2, hrep]

/-- Inside the 28000 ms time-up sequence, the commanded relay level follows the
10000 ms cycle: on during the first 8000 ms of each cycle, off during the rest,
and the sequence stays active. -/
theorem processAlarm_timeup_phase (cfg : AlarmConfig) (st : AlarmState)
    (relay : Bool) (now : Nat) (h8 : cfg.timeupDuration = 8)
    (h3 : cfg.repeatCount = 3) (h2 : cfg.repeatInterval = 2)
    (hrep : cfg.enableRepeating = true) (ha : st.active = true) (hty : st.type = 2)
    (hsync : st.relayOn = relay) (hs : st.startTime ≤ now) (hn : now < U32MOD)
    (hlt : now - st.startTime < 28000) :
    (processAlarmChannel cfg st relay now).2 =
      decide ((now - st.startTime) % 10000 < 8000) ∧
    (processAlarmChannel cfg st relay now).1.active = true := by
  have hp := alarmParams_timeup cfg h8 h3 h2 hrep
  have hw : wsub now st.startTime = now - st.startTime := wsub_eq_sub hs hn
  have hna : ¬(st.active = false) := by rw [ha]; simp
  unfold processAlarmChannel
  rw [if_neg hna, hty, hp]
  dsimp only
  rw [hw]
  have h28 : toU32 (3 * 8000 + (3 - 1) * 2000) = 28000 := by decide
  have h10 : toU32 (8000 + 2000) = 10000 := by decide
  have h8k : toU32 (8000 : Int) = 8000 := by decide
  rw [h28, h10, h8k, if_neg (by omega : ¬(28000 ≤ now - st.startTime))]
  have hcyc : ((((now - st.startTime) / 10000 : Nat)) : Int) < 3 := by omega
  rw [if_pos hcyc]
  by_cases hm : (now - st.startTime) % 10000 < 8000
  · rw [if_pos hm]
    cases hro : st.relayOn
    · simp [hm, ha]
    · have hr2 : relay = true := by rw [← hsync, hro]
      simp [hm, ha, hr2]
  · rw [if_neg hm]
    cases hro : st.relayOn
    · have hr2 : relay = false := by rw [← hsync, hro]
      simp [hm, ha, hr2]
    · simp [hm, ha]

/-- Once 28000 ms have elapsed, the time-up sequence deactivates itself and
forces the relay off. -/
theorem processAlarm_timeup_done (cfg : AlarmConfig) (st : AlarmState)
    (relay : Bool) (now : Nat) (h8 : cfg.timeupDuration = 8)
    (h3 : cfg.repeatCount = 3) (h2 : cfg.repeatInterval = 2)
    (hrep : cfg.enableRepeating = true) (ha : st.active = true) (hty : st.type = 2)
    (hs : st.startTime ≤ now) (hn : now < U32MOD)
    (hge : 28000 ≤ now - st.startTime) :
    processAlarmChannel cfg st relay now = ({ st with active := false }, false) := by
  have hp := alarmParams_timeup cfg h8 h3 h2 hrep
  have hw : wsub now st.startTime = now - st.startTime := wsub_eq_sub hs hn
  have hna : ¬(st.active = false) := by rw [ha]; simp
  unfold processAlarmChannel
  rw [if_neg hna, hty, hp]
  dsimp only
  rw [hw]
  have h28 : toU32 (3 * 8000 + (3 - 1) * 2000) = 28000 := by decide
  rw [h28, if_pos hge]

/-- Claim C2: with timeupDuration = 8, repeatCount = 3, repeatInterval = 2 and
enableRepeating = true, an active time-up sequence has computed total length
3*8 + 2*2 = 28 seconds (28000 ms), the per-tick advance commands the output ON
for elapsed milliseconds in [0,8000), OFF in [8000,10000), ON in [10000,18000),
OFF in [18000,20000), ON in [20000,28000), and once 28000 ms have elapsed it
deactivates the sequence with the output OFF.  The relay cache is assumed in
sync with the physical level, as startAlarmSequence establishes. -/
theorem timeup_alarm_schedule (cfg : AlarmConfig) (st : AlarmState)
    (relay : Bool) (now : Nat) (h8 : cfg.timeupDuration = 8)
    (h3 : cfg.repeatCount = 3) (h2 : cfg.repeatInterval = 2)
    (hrep : cfg.enableRepeating = true) (ha : st.active = true) (hty : st.type = 2)
    (hsync : st.relayOn = relay) (hs : st.startTime ≤ now) (hn : now < U32MOD) :
    alarmTotalDuration cfg 2 = 28000 ∧
    (now - st.startTime < 8000 →
      (processAlarmChannel cfg st relay now).2 = true ∧
      (processAlarmChannel cfg st relay now).1.active = true) ∧
    (8000 ≤ now - st.startTime → now - st.startTime < 10000 →
      (processAlarmChannel cfg st relay now).2 = false ∧
      (processAlarmChannel cfg st relay now).1.active = true) ∧
    (10000 ≤ now - st.startTime → now - st.startTime < 18000 →
      (processAlarmChannel cfg st relay now).2 = true ∧
      (processAlarmChannel cfg st relay now).1.active = true) ∧
    (18000 ≤ now - st.startTime → now - st.startTime < 20000 →
      (processAlarmChannel cfg st relay now).2 = false ∧
      (processAlarmChannel cfg st relay now).1.active = true) ∧
    (20000 ≤ now - st.startTime → now - st.startTime < 28000 →
      (processAlarmChannel cfg st relay now).2 = true ∧
      (processAlarmChannel cfg st relay now).1.active = true) ∧
    (28000 ≤ now - st.startTime →
      (processAlarmChannel cfg st relay now).1.active = false ∧
      (processAlarmChannel cfg st relay now).2 = false) := by
  refine ⟨?_, ?_, ?_, ?_, ?_, ?_, ?_⟩
  · simp only [alarmTotalDuration, alarmParams_timeup cfg h8 h3 h2 hrep]
    decide
  · intro h
    have hp := processAlarm_timeup_phase cfg st relay now h8 h3 h2 hrep ha hty
      hsync hs hn (by omega)
    refine ⟨?_, hp.2⟩
    rw [hp.1]
    simp only [decide_eq_true_eq]
    omega
  · intro h h2b
    have hp := processAlarm_timeup_phase cfg st relay now h8 h3 h2 hrep ha hty
      hsync hs hn (by omega)
    refine ⟨?_, hp.2⟩
    rw [hp.1]
    simp only [decide_eq_false_iff_not]
    omega
  · intro h h2b
    have hp := processAlarm_timeup_phase cfg st relay now h8 h3 h2 hrep ha hty
      hsync hs hn (by omega)
    refine ⟨?_, hp.2⟩
    rw [hp.1]
    simp only [decide_eq_true_eq]
    omega
  · intro h h2b
    have hp := processAlarm_timeup_phase cfg st relay now h8 h3 h2 hrep ha hty
      hsync hs hn (by omega)
    refine ⟨?_, hp.2⟩
    rw [hp.1]
    simp only [decide_eq_false_iff_not]
    omega
  · intro h h2b
    have hp := processAlarm_timeup_phase cfg st relay now h8 h3 h2 hrep ha hty
      hsync hs hn (by omega)
    refine ⟨?_, hp.2⟩
    rw [hp.1]
    simp only [decide_eq_true_eq]
    omega
  · intro h
    have hd := processAlarm_timeup_done cfg st relay now h8 h3 h2 hrep ha hty
      hs hn h
    rw [hd]
    exact ⟨rfl, rfl⟩

/-- Witness for C2: a time-up sequence started at clock 0, observed at
21000 ms (third pulse), commands the output ON and stays active. -/
theorem timeup_alarm_schedule_witness :
    (processAlarmChannel exConfig
      { active := true, startTime := 0, type := 2, currentRepeat := 0,
        relayOn := true, lastToggle := 0 } true 21000).2 = true :=
  ((timeup_alarm_schedule exConfig
    { active := true, startTime := 0, type := 2, currentRepeat := 0,
      relayOn := true, lastToggle := 0 } true 21000 rfl rfl rfl rfl rfl rfl rfl
    (by decide) (by decide)).2.2.2.2.2.1 (by decide) (by decide)).1

/-- Once warningTriggered is latched, a tick never emits another warning start
and never clears the latch. -/
theorem checkTimerField_triggered (cfg : AlarmConfig) (i : Fin 4) (td : TimerData)
    (st : AlarmState) (relay : Bool) (now : Nat) (h : td.warningTriggered = true) :
    (checkTimerField cfg i td st relay now).1.warningTriggered = true ∧
    (checkTimerField cfg i td st relay now).2.2.2.count 1 = 0 := by
  unfold checkTimerField
  dsimp only
  simp only [h, Bool.not_true, Bool.and_false, Bool.false_and]
  split_ifs <;> simp_all

/-- A tick at which the channel is running, the guard does not trip, time is
not up, and the remaining seconds still exceed the warning threshold, is a
complete no-op with no alarm event. -/
theorem checkTimerField_quiet (cfg : AlarmConfig) (i : Fin 4) (td : TimerData)
    (st : AlarmState) (relay : Bool) (now : Nat)
    (hrun : td.isRunning = true) (hfin : td.isFinished = false)
    (hg : wsub now td.startTime / 1000 ≤ td.duration + 60)
    (hlt : wsub now td.startTime / 1000 < td.duration)
    (hw : toU32 cfg.warningTime < td.duration - wsub now td.startTime / 1000) :
    checkTimerField cfg i td st relay now = (td, st, relay, []) := by
  have hng : ¬(td.duration + 60 < wsub now td.startTime / 1000) := by omega
  have hnt : ¬(td.duration ≤ wsub now td.startTime / 1000) := by omega
  unfold checkTimerField
  dsimp only
  rw [hrun, hfin]
  rw [if_pos (by rfl : ((true && !false) = true)), if_neg hng, if_neg hnt, if_neg hnt]
  have hd3 : decide (td.duration - wsub now td.startTime / 1000 ≤
      toU32 cfg.warningTime) = false := decide_eq_false (by omega)
  rw [hd3]
  simp only [Bool.and_false, Bool.false_and]
  simp

/-- The warning-firing tick: running channel of duration 3600, latch clear,
elapsed seconds in [3300, 3600), warning threshold 300: the latch is set, a
fresh Warning sequence is installed with the relay written off, and exactly
the warning event is emitted. -/
theorem checkTimerField_fires (cfg : AlarmConfig) (i : Fin 4) (td : TimerData)
    (st : AlarmState) (relay : Bool) (now : Nat)
    (hew : cfg.enableWarning = true) (hwt : cfg.warningTime = 300)
    (hdur : td.duration = 3600) (hrun : td.isRunning = true)
    (hfin : td.isFinished = false) (hwtr : td.warningTriggered = false)
    (he1 : 3300 ≤ wsub now td.startTime / 1000)
    (he2 : wsub now td.startTime / 1000 < 3600) :
    checkTimerField cfg i td st relay now =
      ({ td with warningTriggered := true },
       { active := true, startTime := now, type := 1, currentRepeat := 0,
         relayOn := false, lastToggle := now }, false, [1]) := by
  have h300 : toU32 cfg.warningTime = 300 := by rw [hwt]; decide
  have hseq := startAlarmSequence_valid st relay (i.val : Int) 1 now
    (by positivity) (by exact_mod_cast i.isLt) (by omega) (by omega)
  have hng : ¬(td.duration + 60 < wsub now td.startTime / 1000) := by omega
  have hnt : ¬(td.duration ≤ wsub now td.startTime / 1000) := by omega
  unfold checkTimerField
  dsimp only
  rw [hrun, hfin]
  rw [if_pos (by rfl : ((true && !false) = true)), if_neg hng, if_neg hnt, if_neg hnt]
  have hd3 : decide (td.duration - wsub now td.startTime / 1000 ≤
      toU32 cfg.warningTime) = true := decide_eq_true (by rw [h300]; omega)
  have hd4 : decide (0 < td.duration - wsub now td.startTime / 1000) = true :=
    decide_eq_true (by omega)
  rw [hew, hwtr, hd3, hd4]
  simp only [Bool.not_false, Bool.and_self, Bool.and_true, Bool.true_and]
  simp only [if_true]
  rw [hseq]

/-- Ticks at which the per-channel body is a no-op leave the run state and the
event log unchanged. -/
theorem tickRun_quiet (cfg : AlarmConfig) (i : Fin 4) (td : TimerData)
    (st : AlarmState) (relay : Bool) (ts : List Nat)
    (h : ∀ t ∈ ts, checkTimerField cfg i td st relay t = (td, st, relay, [])) :
    tickRun cfg i ts (td, st, relay) = ((td, st, relay), []) := by
  induction ts with
  | nil => rfl
  | cons t ts ih =>
      simp only [tickRun, h t (by simp)]
      simpa using ih (fun u hu => h u (by simp [hu]))

/-- After the warning latch is set, no run of further ticks ever emits another
warning event, and the latch stays set. -/
theorem tickRun_count_zero (cfg : AlarmConfig) (i : Fin 4) (ts : List Nat)
    (x : TimerData × AlarmState × Bool) (h : x.1.warningTriggered = true) :
    (tickRun cfg i ts x).2.count 1 = 0 := by
  induction ts generalizing x with
  | nil => simp [tickRun]
  | cons t ts ih =>
      have h2 := checkTimerField_triggered cfg i x.1 x.2.1 x.2.2 t h
      have h3 := ih ((checkTimerField cfg i x.1 x.2.1 x.2.2 t).1,
        (checkTimerField cfg i x.1 x.2.1 x.2.2 t).2.1,
        (checkTimerField cfg i x.1 x.2.1 x.2.2 t).2.2.1) h2.1
      simp only [tickRun, List.count_append, h2.2, h3]

/-- Splitting a run of ticks at a list append splits the event log. -/
theorem tickRun_append (cfg : AlarmConfig) (i : Fin 4) (l1 l2 : List Nat)
    (x : TimerData × AlarmState × Bool) :
    tickRun cfg i (l1 ++ l2) x =
      ((tickRun cfg i l2 (tickRun cfg i l1 x).1).1,
       (tickRun cfg i l1 x).2 ++ (tickRun cfg i l2 (tickRun cfg i l1 x).1).2) := by
  induction l1 generalizing x with
  | nil => simp [tickRun]
  | cons t ts ih => simp [tickRun, ih, List.append_assoc]

/-- Claim C4: in a run with enableWarning = true, warningTime = 300, duration
3600, with monotone tick times below the wrap bound: every tick at which the
elapsed seconds are outside the warning window [3300, 3600) (remaining outside
the interval from 1 to 300) is a no-op, the first tick inside the window sets
warningTriggered and starts the Warning sequence emitting exactly the warning
event, and over the whole run (ticks before the window, the firing tick, and
any later ticks) exactly one warning start is emitted: no later tick of the run
ever starts another Warning sequence. -/
theorem warning_fires_exactly_once (cfg : AlarmConfig) (i : Fin 4)
    (td0 : TimerData) (st0 : AlarmState) (r0 : Bool)
    (ts1 : List Nat) (tj : Nat) (ts2 : List Nat)
    (hew : cfg.enableWarning = true) (hwt : cfg.warningTime = 300)
    (hdur : td0.duration = 3600) (hrun : td0.isRunning = true)
    (hfin : td0.isFinished = false) (hwtr : td0.warningTriggered = false)
    (hj1 : td0.startTime ≤ tj) (hj2 : tj < U32MOD)
    (hje1 : 3300 ≤ (tj - td0.startTime) / 1000)
    (hje2 : (tj - td0.startTime) / 1000 < 3600)
    (hts1 : ∀ t ∈ ts1, td0.startTime ≤ t ∧ t ≤ tj ∧
      ¬(3300 ≤ (t - td0.startTime) / 1000 ∧ (t - td0.startTime) / 1000 < 3600)) :
    tickRun cfg i ts1 (td0, st0, r0) = ((td0, st0, r0), []) ∧
    checkTimerField cfg i td0 st0 r0 tj =
      ({ td0 with warningTriggered := true },
       { active := true, startTime := tj, type := 1, currentRepeat := 0,
         relayOn := false, lastToggle := tj }, false, [1]) ∧
    (tickRun cfg i (ts1 ++ tj :: ts2) (td0, st0, r0)).2.count 1 = 1 := by
  have h300 : toU32 cfg.warningTime = 300 := by rw [hwt]; decide
  have hwj : wsub tj td0.startTime / 1000 = (tj - td0.startTime) / 1000 := by
    rw [wsub_eq_sub hj1 hj2]
  have hquiet : ∀ t ∈ ts1, checkTimerField cfg i td0 st0 r0 t = (td0, st0, r0, []) := by
    intro t ht
    obtain ⟨h1t, h2t, h3t⟩ := hts1 t ht
    have htM : t < U32MOD := lt_of_le_of_lt h2t hj2
    have hwe : wsub t td0.startTime / 1000 = (t - td0.startTime) / 1000 := by
      rw [wsub_eq_sub h1t htM]
    have hmt : (t - td0.startTime) / 1000 ≤ (tj - td0.startTime) / 1000 :=
      Nat.div_le_div_right (Nat.sub_le_sub_right h2t _)
    have hl33 : (t - td0.startTime) / 1000 < 3300 := by omega
    exact checkTimerField_quiet cfg i td0 st0 r0 t hrun hfin
      (by rw [hwe]; omega) (by rw [hwe]; omega) (by rw [hwe, h300]; omega)
  have hA : tickRun cfg i ts1 (td0, st0, r0) = ((td0, st0, r0), []) :=
    tickRun_quiet cfg i td0 st0 r0 ts1 hquiet
  have hB := checkTimerField_fires cfg i td0 st0 r0 tj hew hwt hdur hrun hfin hwtr
    (by rw [hwj]; exact hje1) (by rw [hwj]; exact hje2)
  refine ⟨hA, hB, ?_⟩
  rw [tickRun_append, hA]
  simp only [tickRun, hB, List.count_append]
  have hz : (tickRun cfg i ts2
      ({ td0 with warningTriggered := true },
       { active := true, startTime := tj, type := 1, currentRepeat := 0,
         relayOn := false, lastToggle := tj }, false)).2.count 1 = 0 :=
    tickRun_count_zero cfg i ts2 _ rfl
  simp [hz]

/-- Witness for C4: a channel started at clock 0 with duration 3600 under the
default profile, ticked at 1000000 ms (no-op), 3300000 ms (warning fires) and
3400000 ms, emits exactly one warning start over the run. -/
theorem warning_fires_exactly_once_witness :
    (tickRun exConfig 0 ([1000000] ++ 3300000 :: [3400000])
      ({ startTime := 0, duration := 3600, isRunning := true, isFinished := false,
         warningTriggered := false, fieldName := "Field 1" }, exAlarmOn, true)).2.count 1 = 1 :=
  (warning_fires_exactly_once exConfig 0
    { startTime := 0, duration := 3600, isRunning := true, isFinished := false,
      warningTriggered := false, fieldName := "Field 1" } exAlarmOn true
    [1000000] 3300000 [3400000] rfl rfl rfl rfl rfl rfl (by decide) (by decide)
    (by decide) (by decide) (by decide)).2.2

end PadelAlarm
